import Mathlib

/-!
Verification development for the pymeteosource client library.

The HTTP layer (`request_handler.py`) is embedded directly from the source.
The response-modelling layer (`api.py`, `data.py`, `errors.py`) is not part of
the available source tree, so its definitions are modelled from the
specification, as indicated by their doc comments.
-/

/-- Modelled from the spec: a timestamp in the fixed format
`YYYY-MM-DDTHH:MM:SS`, timezone-naive, bound implicitly to the owning
Forecast's timezone (spec section 3, "Timestamp"). -/
structure NaiveDT where
  year : Nat
  month : Nat
  day : Nat
  hour : Nat
  minute : Nat
  second : Nat
deriving DecidableEq, Repr

/-- Modelled from the spec: a timezone attached to an aware datetime, with its
IANA name and its UTC offset in minutes (as produced by pytz localization). -/
structure TZInfo where
  name : String
  offset_minutes : Int
deriving DecidableEq, Repr

/-- Modelled from the spec: a datetime index value, either naive (`tz = none`)
or timezone-aware (`tz = some z`), mirroring Python `datetime` objects. -/
structure DT where
  naive : NaiveDT
  tz : Option TZInfo
deriving DecidableEq, Repr

/-- Zero-pad a natural number to two digits, as Python datetime rendering does. -/
def pad2 (n : Nat) : String :=
  if n < 10 then "0" ++ toString n else toString n

/-- Zero-pad a natural number to four digits (for years). -/
def pad4 (n : Nat) : String :=
  if n < 10 then "000" ++ toString n
  else if n < 100 then "00" ++ toString n
  else if n < 1000 then "0" ++ toString n
  else toString n

/-- Render a UTC offset in minutes the way Python renders `datetime.tzinfo`
offsets, e.g. `+04:30`. -/
def offset_str (m : Int) : String :=
  (if m < 0 then "-" else "+") ++ pad2 (m.natAbs / 60) ++ ":" ++ pad2 (m.natAbs % 60)

/-- Render a naive datetime the way Python `str(datetime)` does:
`YYYY-MM-DD HH:MM:SS`. -/
def NaiveDT.render (t : NaiveDT) : String :=
  pad4 t.year ++ "-" ++ pad2 t.month ++ "-" ++ pad2 t.day ++ " " ++
    pad2 t.hour ++ ":" ++ pad2 t.minute ++ ":" ++ pad2 t.second

/-- Render a possibly-aware datetime the way Python `str(datetime)` does:
the naive part, followed by the UTC offset when a timezone is attached. -/
def DT.render (d : DT) : String :=
  d.naive.render ++ (match d.tz with
    | none => ""
    | some z => offset_str z.offset_minutes)

/-- The fixed timestamp format string `F1` from `pymeteosource.types.time_formats`. -/
def F1 : String := "%Y-%m-%dT%H:%M:%S"

/-- Numeric value of a decimal digit character. -/
def dval (c : Char) : Nat := c.toNat - 48

/-- Modelled from the spec: parsing a string against the fixed timestamp
format `YYYY-MM-DDTHH:MM:SS` (spec section 6, "Timestamp format"); returns
`none` exactly when the string does not conform to the format, as
`datetime.strptime` raises `ValueError`. -/
def parseF1 (s : String) : Option NaiveDT :=
  match s.toList with
  | [y1, y2, y3, y4, c1, m1, m2, c2, d1, d2, c3, h1, h2, c4, n1, n2, c5, s1, s2] =>
    if y1.isDigit && y2.isDigit && y3.isDigit && y4.isDigit && c1 == '-' &&
       m1.isDigit && m2.isDigit && c2 == '-' && d1.isDigit && d2.isDigit &&
       c3 == 'T' && h1.isDigit && h2.isDigit && c4 == ':' &&
       n1.isDigit && n2.isDigit && c5 == ':' && s1.isDigit && s2.isDigit then
      let y := dval y1 * 1000 + dval y2 * 100 + dval y3 * 10 + dval y4
      let mo := dval m1 * 10 + dval m2
      let da := dval d1 * 10 + dval d2
      let ho := dval h1 * 10 + dval h2
      let mi := dval n1 * 10 + dval n2
      let se := dval s1 * 10 + dval s2
      if 1 ≤ mo ∧ mo ≤ 12 ∧ 1 ≤ da ∧ da ≤ 31 ∧ ho ≤ 23 ∧ mi ≤ 59 ∧ se ≤ 59 then
        some ⟨y, mo, da, ho, mi, se⟩
      else none
    else none
  | _ => none

/-- Scalar JSON leaf values (numbers, strings, booleans, null). -/
inductive Scalar where
  | num (q : ℚ)
  | str (s : String)
  | bool (b : Bool)
  | null
deriving DecidableEq, Repr

/-- A JSON value, as returned by `execute_request`. -/
inductive Json where
  | num (q : ℚ)
  | str (s : String)
  | bool (b : Bool)
  | null
  | arr (xs : List Json)
  | obj (fields : List (String × Json))

/-- Modelled from the spec: a field value of a Single-Time Node
(`pymeteosource.data.SingleTimeData`, not in the source tree): a scalar,
a parsed timestamp, or a nested node of grouped measurements (spec section 3,
"Single-Time Node"). -/
inductive FieldVal where
  | scalar (v : Scalar)
  | time (t : NaiveDT)
  | node (fields : List (String × FieldVal))

/-- First-match association lookup, mirroring attribute access on parsed nodes. -/
def lookupKV {α : Type} (k : String) : List (String × α) → Option α
  | [] => none
  | (k2, v) :: rest => if k2 = k then some v else lookupKV k rest

/-- Modelled from the spec: a Single-Time Node, holding the fields present in
the corresponding JSON object for this section, in order. -/
structure SingleTimeData where
  fields : List (String × FieldVal)

/-- Modelled from the spec: attribute access on a Single-Time Node by field
name (spec section 4.2). -/
def SingleTimeData.attr (n : SingleTimeData) (k : String) : Option FieldVal :=
  lookupKV k n.fields

/-- Modelled from the spec: `get_members()` returns the field names present
on the node (spec section 4.2). -/
def SingleTimeData.get_members (n : SingleTimeData) : List String :=
  n.fields.map Prod.fst

/-- Attribute access on a nested field value: defined on group nodes only. -/
def FieldVal.attr (v : FieldVal) (k : String) : Option FieldVal :=
  match v with
  | .node fs => lookupKV k fs
  | _ => none

/-- Join a flattened-key path with a further component, inserting one
underscore per nesting level; the empty path is the identity. -/
def joinKey (p k : String) : String :=
  if p = "" then k else p ++ "_" ++ k

mutual
/-- Modelled from the spec: flattening of one field value under a given
flattened-key path; leaves produce one entry, group nodes recurse
(spec section 4.2, `to_dict()`). -/
def flattenVal (key : String) : FieldVal → List (String × FieldVal)
  | .scalar v => [(key, .scalar v)]
  | .time t => [(key, .time t)]
  | .node fs => flattenFields key fs

/-- Modelled from the spec: flattening of a field list under a given
flattened-key path. -/
def flattenFields (p : String) : List (String × FieldVal) → List (String × FieldVal)
  | [] => []
  | (k, v) :: rest => flattenVal (joinKey p k) v ++ flattenFields p rest
end

mutual
/-- The flattened key paths of the leaves of one field value, independent of
the flattening function: one key per leaf field. -/
def leafKeysVal (key : String) : FieldVal → List String
  | .scalar _ => [key]
  | .time _ => [key]
  | .node fs => leafKeysFields key fs

/-- The flattened key paths of the leaves of a field list. -/
def leafKeysFields (p : String) : List (String × FieldVal) → List String
  | [] => []
  | (k, v) :: rest => leafKeysVal (joinKey p k) v ++ leafKeysFields p rest
end

/-- Modelled from the spec: `to_dict()` recursively flattens nested nodes
into a single-level mapping; a name clash between flattened keys is surfaced
as an error, never silently overwritten (spec section 4.2, collision policy). -/
def SingleTimeData.to_dict (n : SingleTimeData) : Except String (List (String × FieldVal)) :=
  let flat := flattenFields "" n.fields
  if (flat.map Prod.fst).Nodup then .ok flat
  else .error "flattened key collision"

/-- Modelled from the spec: a Multiple-Times Container
(`pymeteosource.data.MultipleTimesData`, not in the source tree): an ordered
sequence of Single-Time Nodes in API response order, each tagged with a
timestamp field named `date_key` (`date` or `day`), bound to the owning
Forecast's timezone; minutely sections carry an optional summary
(spec section 3, "Multiple-Times Container"). -/
structure MultipleTimesData where
  data : List SingleTimeData
  date_key : String
  timezone : String
  summary : Option String

/-- Modelled from the spec: `len()` returns the element count (spec section 4.3). -/
def MultipleTimesData.len (m : MultipleTimesData) : Nat :=
  m.data.length

/-- The parsed timestamp of one element: the value of its timestamp field. -/
def MultipleTimesData.tsOf (m : MultipleTimesData) (n : SingleTimeData) : Option NaiveDT :=
  match n.attr m.date_key with
  | some (.time t) => some t
  | _ => none

/-- The first element whose timestamp field equals the given instant. -/
def MultipleTimesData.findTs (m : MultipleTimesData) (t : NaiveDT) : Option SingleTimeData :=
  m.data.find? (fun e => decide (m.tsOf e = some t))

/-- Modelled from the spec: the value used to index a Multiple-Times
Container — an integer, a string, a (possibly aware) datetime, or a value of
any other unsupported type, carried with its textual rendering
(spec section 4.3). -/
inductive Idx where
  | int (i : Int)
  | str (s : String)
  | dt (d : DT)
  | other (repr : String)

/-- Modelled from the spec: the error kinds raised by container indexing
(`IndexError`, `InvalidStrIndex`, `InvalidDatetimeIndex`, `InvalidIndexType`
of `pymeteosource.errors`, not in the source tree). -/
inductive IdxErr where
  | indexError
  | invalidStrIndex (s : String)
  | invalidDatetimeIndex (message : String)
  | invalidIndexType
deriving DecidableEq, Repr

/-- The deterministic message of the invalid-datetime-index error:
`Invalid datetime index "<dt>" to MultipleTimesData!`. -/
def invalidDtMsg (d : DT) : String :=
  "Invalid datetime index \"" ++ d.render ++ "\" to MultipleTimesData!"

/-- Modelled from the spec: `__getitem__` of a Multiple-Times Container with
its three indexing modes (spec section 4.3): an integer returns the node at
that position and raises an index error out of range; a string must match the
fixed timestamp format exactly, is parsed, and is matched by exact equality
against each element's timestamp field, a non-conforming string raising the
bad-string-index error; a naive datetime is compared directly against element
timestamps, while an aware one must carry the Forecast's own timezone or the
invalid-datetime-index error is raised; any other index type raises the
invalid-index-type error. -/
def MultipleTimesData.getitem (m : MultipleTimesData) : Idx → Except IdxErr SingleTimeData
  | .int i =>
    if i < 0 then .error .indexError
    else if h : i.toNat < m.data.length then .ok (m.data.get ⟨i.toNat, h⟩)
    else .error .indexError
  | .str s =>
    match parseF1 s with
    | none => .error (.invalidStrIndex s)
    | some t =>
      match m.findTs t with
      | some n => .ok n
      | none => .error (.invalidStrIndex s)
  | .dt d =>
    match d.tz with
    | none =>
      match m.findTs d.naive with
      | some n => .ok n
      | none => .error (.invalidDatetimeIndex (invalidDtMsg d))
    | some z =>
      if z.name = m.timezone then
        match m.findTs d.naive with
        | some n => .ok n
        | none => .error (.invalidDatetimeIndex (invalidDtMsg d))
      else .error (.invalidDatetimeIndex (invalidDtMsg d))
  | .other _ => .error .invalidIndexType

/-- Modelled from the spec: the result of `to_pandas()` — a rectangular table
with one row per element (the element's flattened dictionary) and a
datetime-typed row index holding each element's timestamp localized to the
Forecast's timezone (spec section 4.3). -/
structure TimeTable where
  index : List (Option NaiveDT × String)
  rows : List (List (String × FieldVal))

/-- Modelled from the spec: `to_pandas()` builds the table from the ordered
elements: one row per element via its flattening, and the index from each
element's timestamp field paired with the Forecast's timezone. -/
def MultipleTimesData.to_pandas (m : MultipleTimesData) : TimeTable :=
  { index := m.data.map (fun e => (m.tsOf e, m.timezone))
    rows := m.data.map (fun e => flattenFields "" e.fields) }

mutual
/-- Modelled from the spec: the Response Tree Builder on one JSON value in a
node position, given the field name it sits under (spec section 4.1):
scalars pass through unchanged except the timestamp-looking string fields
`date` and `day`, which are parsed with the fixed format and surface a parse
error when malformed; objects recurse into nested nodes; a sequence in node
position is an unexpected shape. -/
def buildVal (k : String) : Json → Except String FieldVal
  | .num q => .ok (.scalar (.num q))
  | .str s =>
    if k = "date" ∨ k = "day" then
      match parseF1 s with
      | some t => .ok (.time t)
      | none => .error ("cannot parse timestamp field " ++ k)
    else .ok (.scalar (.str s))
  | .bool b => .ok (.scalar (.bool b))
  | .null => .ok (.scalar .null)
  | .arr _ => .error "unexpected sequence in node position"
  | .obj fs =>
    match buildFields fs with
    | .ok built => .ok (.node built)
    | .error e => .error e

/-- Modelled from the spec: the Response Tree Builder on the field list of a
JSON object, building each field in order and keeping every key present. -/
def buildFields : List (String × Json) → Except String (List (String × FieldVal))
  | [] => .ok []
  | (k, v) :: rest =>
    match buildVal k v with
    | .error e => .error e
    | .ok fv =>
      match buildFields rest with
      | .error e => .error e
      | .ok r => .ok ((k, fv) :: r)
end

/-- Modelled from the spec: building a Single-Time Node from a JSON object
(spec section 4.1, dispatch rule (a)). -/
def buildNode (j : Json) : Except String SingleTimeData :=
  match j with
  | .obj fs =>
    match buildFields fs with
    | .ok built => .ok ⟨built⟩
    | .error e => .error e
  | _ => .error "a Single-Time Node must come from a JSON object"

/-- Modelled from the spec: building the elements of a repeated-instant
sequence; every element must be a JSON object. -/
def buildElems : List Json → Except String (List SingleTimeData)
  | [] => .ok []
  | j :: rest =>
    match j with
    | .obj fs =>
      match buildFields fs with
      | .error e => .error e
      | .ok built =>
        match buildElems rest with
        | .error e => .error e
        | .ok r => .ok (⟨built⟩ :: r)
    | _ => .error "sequence elements must be objects"

/-- The timestamp key used by a repeated-instant sequence: `day` when the
elements carry a `day` field (daily sections), else `date`. -/
def dateKeyOf : List SingleTimeData → String
  | [] => "date"
  | e :: _ => if (lookupKV "day" e.fields).isSome then "day" else "date"

/-- The optional `summary` string of a section object (minutely sections). -/
def summaryOf (fs : List (String × Json)) : Option String :=
  match lookupKV "summary" fs with
  | some (.str s) => some s
  | _ => none

/-- Modelled from the spec: a section of a Forecast — either one Single-Time
Node (current) or a Multiple-Times Container (minutely, hourly, daily). -/
inductive SectionData where
  | single (d : SingleTimeData)
  | multi (m : MultipleTimesData)

/-- Modelled from the spec: building one section (spec section 4.1, dispatch
rule): an object holding a `data` sequence of per-instant objects becomes a
Multiple-Times Container; any other object becomes a Single-Time Node. -/
def buildSection (tz : String) (j : Json) : Except String SectionData :=
  match j with
  | .obj fs =>
    match lookupKV "data" fs with
    | some (.arr xs) =>
      match buildElems xs with
      | .error e => .error e
      | .ok elems => .ok (.multi ⟨elems, dateKeyOf elems, tz, summaryOf fs⟩)
    | _ =>
      match buildFields fs with
      | .error e => .error e
      | .ok built => .ok (.single ⟨built⟩)
  | .null => .ok (.single ⟨[]⟩)
  | _ => .error "unexpected section shape"

/-- Modelled from the spec: building every requested section of the response. -/
def buildSections (tz : String) : List (String × Json) → Except String (List (String × SectionData))
  | [] => .ok []
  | (k, v) :: rest =>
    match buildSection tz v with
    | .error e => .error e
    | .ok s =>
      match buildSections tz rest with
      | .error e => .error e
      | .ok r => .ok ((k, s) :: r)

/-- Modelled from the spec: the Forecast root object, carrying the location
metadata of the response and one built section per requested section name
(spec section 3, "Forecast"). -/
structure Forecast where
  lat : ℚ
  lon : ℚ
  elevation : ℚ
  timezone : String
  units : String
  sections : List (String × SectionData)

/-- The top-level response keys that are location metadata, not sections. -/
def metaKeys : List String := ["lat", "lon", "elevation", "timezone", "units"]

/-- Modelled from the spec: assembling a Forecast root object from a
successful JSON response — the five location metadata fields are read from
the top level and every remaining key is built as a section
(spec section 4.4). -/
def buildForecast (j : Json) : Except String Forecast :=
  match j with
  | .obj fs =>
    match lookupKV "lat" fs, lookupKV "lon" fs, lookupKV "elevation" fs,
          lookupKV "timezone" fs, lookupKV "units" fs with
    | some (.num la), some (.num lo), some (.num el), some (.str tz), some (.str un) =>
      match buildSections tz (fs.filter (fun kv => decide (kv.1 ∉ metaKeys))) with
      | .error e => .error e
      | .ok secs => .ok ⟨la, lo, el, tz, un, secs⟩
    | _, _, _, _, _ => .error "missing location metadata"
  | _ => .error "forecast response must be an object"

/-- The retry policy object, embedded from
`requests.adapters.Retry(total=3, backoff_factor=1, status_forcelist=[500, 501, 502, 503, 504])`
in `RequestHandler.__init__` (src/pymeteosource/request_handler.py line 38). -/
structure Retry where
  total : Nat
  backoff_factor : Nat
  status_forcelist : List Nat
deriving DecidableEq, Repr

/-- The retry policy constructed by `RequestHandler.__init__`. -/
def retries : Retry := ⟨3, 1, [500, 501, 502, 503, 504]⟩

/-- The per-attempt timeout passed by `execute_request`
(`self.session.get(url, params=params, timeout=10)`, line 49). -/
def request_timeout : Nat := 10

/-- The outcome of one HTTP attempt: a connection failure, a timeout, or a
response carrying a status code and a JSON body. -/
inductive Outcome where
  | conn_error
  | timeout_error
  | response (status : Nat) (body : Json)

/-- Whether the mounted retry policy retries after a given attempt outcome:
connection failures and timeouts are retried, and so is any response whose
status code is in the configured forcelist. -/
def retryable (r : Retry) : Outcome → Bool
  | .conn_error => true
  | .timeout_error => true
  | .response s _ => r.status_forcelist.contains s

/-- The attempt loop run by the mounted `HTTPAdapter`: starting at attempt
`k` with a remaining retry budget, it retries while the outcome is retryable
and budget remains, and otherwise stops; it returns the index of the last
attempt made together with its outcome. -/
def run_attempts (r : Retry) (outcomes : Nat → Outcome) : Nat → Nat → Nat × Outcome
  | k, 0 => (k, outcomes k)
  | k, fuel + 1 =>
    if retryable r (outcomes k) then run_attempts r outcomes (k + 1) fuel
    else (k, outcomes k)

/-- The outcome of the last attempt of one `execute_request` call, under the
mounted retry policy with its full budget. -/
def final_outcome (outcomes : Nat → Outcome) : Outcome :=
  (run_attempts retries outcomes 0 retries.total).2

/-- The index of the last attempt of one `execute_request` call; it equals
the number of retries performed beyond the first attempt. -/
def retries_used (outcomes : Nat → Outcome) : Nat :=
  (run_attempts retries outcomes 0 retries.total).1

/-- The result of `execute_request`: the parsed JSON body, the typed
invalid-request error carrying the HTTP response, or a propagated transport
failure. -/
inductive RequestResult where
  | ok (body : Json)
  | invalid_request (status : Nat) (body : Json)
  | transport_error (o : Outcome)

/-- Embedded from `RequestHandler.execute_request`
(src/pymeteosource/request_handler.py lines 42-55): the session performs the
GET with the mounted retry policy; when the final attempt yields a response,
a 200 status returns the parsed JSON body and any other status raises
`InvalidRequestError(response)`; a connection failure or timeout surviving
the retry budget propagates as a transport failure. -/
def execute_request (outcomes : Nat → Outcome) : RequestResult :=
  match final_outcome outcomes with
  | .response s body =>
    if s ≠ 200 then .invalid_request s body else .ok body
  | .conn_error => .transport_error .conn_error
  | .timeout_error => .transport_error .timeout_error

/-- A header mapping, with Python `dict.update` semantics. -/
def dict_set (m : String → Option String) (k v : String) : String → Option String :=
  fun x => if x = k then some v else m x

/-- The state of the `requests.Session` owned by a `RequestHandler`: its
header mapping and the adapter (retry policy) mounted per URL scheme. -/
structure Session where
  headers : String → Option String
  adapters : String → Option Retry

/-- Embedded from `RequestHandler.__init__`
(src/pymeteosource/request_handler.py lines 24-40): starting from the fresh
session's base headers, the `X-API-Key` header is set to the key, the
`Accept-Encoding: gzip` header is set exactly when `use_gzip` is true, and
the same retry policy is mounted for both the `http://` and `https://`
URL schemes. -/
def requestHandler_init (base : String → Option String) (key : String) (use_gzip : Bool) : Session :=
  let h1 := dict_set base "X-API-Key" key
  let h2 := if use_gzip then dict_set h1 "Accept-Encoding" "gzip" else h1
  { headers := h2
    adapters := fun scheme =>
      if scheme = "http://" then some retries
      else if scheme = "https://" then some retries
      else none }

/-- A request as sent on the wire by `session.get`: its URL, the headers
applied, and the timeout bound. -/
structure SentRequest where
  url : String
  headers : String → Option String
  timeout_sec : Nat

/-- The request sent by `execute_request` through the session: the session's
own headers are applied unchanged, with the fixed 10-second timeout
(src/pymeteosource/request_handler.py line 49). -/
def session_send (s : Session) (url : String) : SentRequest :=
  ⟨url, s.headers, request_timeout⟩

/-- Modelled from the spec: the result of argument validation in
`MeteoSource.get_point_forecast` (`pymeteosource/api.py`, not in the source
tree): either the arguments are valid, or the invalid-argument error
(`InvalidArgumentError`) is raised with its message (spec section 4.4). -/
inductive PointArgsResult where
  | valid
  | invalidArgument (message : String)
deriving DecidableEq, Repr

/-- The fixed invalid-argument message. -/
def invalid_arg_msg : String := "Only place_id or lat+lon can be specified!"

/-- Modelled from the spec: argument validation of
`MeteoSource.get_point_forecast` — exactly one of `place_id` or the complete
pair `(lat, lon)` must be supplied; any other combination raises the
invalid-argument error with the fixed message (spec section 4.4). -/
def check_point_args (place_id : Option String) (lat lon : Option ℚ) : PointArgsResult :=
  if (place_id.isSome && lat.isNone && lon.isNone) ||
     (place_id.isNone && lat.isSome && lon.isSome) then .valid
  else .invalidArgument invalid_arg_msg

/-- A concrete hourly element mirroring the fixture payload: 10:00 on
2021-09-08. -/
def fixtureElem0 : SingleTimeData :=
  ⟨[("date", .time ⟨2021, 9, 8, 10, 0, 0⟩), ("feels_like", .scalar (.num 22))]⟩

/-- A concrete hourly element mirroring the fixture payload: 11:00 on
2021-09-08, with `feels_like` 23.2 and `wind.angle` 106. -/
def fixtureElem1 : SingleTimeData :=
  ⟨[("date", .time ⟨2021, 9, 8, 11, 0, 0⟩), ("feels_like", .scalar (.num 23.2)),
    ("wind", .node [("angle", .scalar (.num 106))])]⟩

/-- A concrete hourly element mirroring the fixture payload: midnight on
2021-09-09, with `probability.precipitation` 61. -/
def fixtureElem2 : SingleTimeData :=
  ⟨[("date", .time ⟨2021, 9, 9, 0, 0, 0⟩),
    ("probability", .node [("precipitation", .scalar (.num 61))])]⟩

/-- A concrete hourly Multiple-Times Container mirroring the fixture payload,
owned by a Forecast in the `Europe/London` timezone. -/
def fixtureHourly : MultipleTimesData :=
  ⟨[fixtureElem0, fixtureElem1, fixtureElem2], "date", "Europe/London", none⟩

/-- A concrete daily element mirroring the fixture payload, with the nested
`afternoon.wind` group. -/
def fixtureDaily0 : SingleTimeData :=
  ⟨[("day", .time ⟨2021, 9, 8, 0, 0, 0⟩),
    ("afternoon", .node [("wind", .node [("angle", .scalar (.num 106)),
      ("speed", .scalar (.num 3))])])]⟩

/-- A concrete successful JSON response body, mirroring the shape of the
reference payload: the five location metadata fields plus one section. -/
def samplePayload : List (String × Json) :=
  [("lat", .num 51), ("lon", .num (-1)), ("elevation", .num 25),
   ("timezone", .str "Europe/London"), ("units", .str "metric"),
   ("current", .obj [("temperature", .num 17)])]

/-- The Forecast root object built from `samplePayload`. -/
def sampleForecast : Forecast :=
  ⟨51, -1, 25, "Europe/London", "metric",
   [("current", .single ⟨[("temperature", .scalar (.num 17))]⟩)]⟩

theorem fieldVal_sizeOf_pos (v : FieldVal) : 0 < sizeOf v := by
  cases v <;> simp_arith

theorem flatten_keys_aux (n : Nat) :
    (∀ (v : FieldVal) (key : String), sizeOf v ≤ n →
      (flattenVal key v).map Prod.fst = leafKeysVal key v) ∧
    (∀ (fs : List (String × FieldVal)) (p : String), sizeOf fs ≤ n →
      (flattenFields p fs).map Prod.fst = leafKeysFields p fs) := by
  induction n with
  | zero =>
    constructor
    · intro v key h
      exact absurd h (by simpa using (fieldVal_sizeOf_pos v).ne')
    · intro fs p h
      cases fs with
      | nil => simp [flattenFields, leafKeysFields]
      | cons kv rest => simp_arith at h
  | succ n ih =>
    constructor
    · intro v key h
      cases v with
      | scalar s => simp [flattenVal, leafKeysVal]
      | time t => simp [flattenVal, leafKeysVal]
      | node fs =>
        have hfs : sizeOf fs ≤ n := by simp_arith at h; omega
        simp [flattenVal, leafKeysVal, ih.2 fs key hfs]
    · intro fs p h
      cases fs with
      | nil => simp [flattenFields, leafKeysFields]
      | cons kv rest =>
        obtain ⟨k, v⟩ := kv
        have h1 : sizeOf v ≤ n := by simp_arith at h; omega
        have h2 : sizeOf rest ≤ n := by simp_arith at h; omega
        simp [flattenFields, leafKeysFields, ih.1 v (joinKey p k) h1, ih.2 rest p h2]

theorem flattenFields_map_fst (fs : List (String × FieldVal)) (p : String) :
    (flattenFields p fs).map Prod.fst = leafKeysFields p fs :=
  (flatten_keys_aux (sizeOf fs)).2 fs p le_rfl

theorem run_attempts_fst_le (r : Retry) (o : Nat → Outcome) :
    ∀ (fuel k : Nat), (run_attempts r o k fuel).1 ≤ k + fuel := by
  intro fuel
  induction fuel with
  | zero => intro k; simp [run_attempts]
  | succ n ih =>
    intro k
    by_cases h : retryable r (o k) = true
    · calc (run_attempts r o k (n + 1)).1 = (run_attempts r o (k + 1) n).1 := by
            simp [run_attempts, h]
        _ ≤ k + 1 + n := ih (k + 1)
        _ = k + (n + 1) := by omega
    · simp [run_attempts, h]

theorem run_attempts_retryable_below (r : Retry) (o : Nat → Outcome) :
    ∀ (fuel k j : Nat), k ≤ j → j < (run_attempts r o k fuel).1 →
      retryable r (o j) = true := by
  intro fuel
  induction fuel with
  | zero => intro k j hk hj; simp [run_attempts] at hj; omega
  | succ n ih =>
    intro k j hk hj
    by_cases h : retryable r (o k) = true
    · rw [show run_attempts r o k (n + 1) = run_attempts r o (k + 1) n by
        simp [run_attempts, h]] at hj
      rcases Nat.eq_or_lt_of_le hk with rfl | hlt
      · exact h
      · exact ih (k + 1) j hlt hj
    · simp [run_attempts, h] at hj; omega

theorem run_attempts_final_retryable (r : Retry) (o : Nat → Outcome) :
    ∀ (fuel k : Nat), retryable r ((run_attempts r o k fuel).2) = true →
      (run_attempts r o k fuel).1 = k + fuel := by
  intro fuel
  induction fuel with
  | zero => intro k _; simp [run_attempts]
  | succ n ih =>
    intro k hfin
    by_cases h : retryable r (o k) = true
    · rw [show run_attempts r o k (n + 1) = run_attempts r o (k + 1) n by
        simp [run_attempts, h]] at hfin ⊢
      rw [ih (k + 1) hfin]; omega
    · simp [run_attempts, h] at hfin

theorem buildFields_keys :
    ∀ (fs : List (String × Json)) (bs : List (String × FieldVal)),
      buildFields fs = .ok bs → bs.map Prod.fst = fs.map Prod.fst := by
  intro fs
  induction fs with
  | nil =>
    intro bs h
    simp [buildFields] at h
    simp [← h]
  | cons kv rest ih =>
    intro bs h
    obtain ⟨k, v⟩ := kv
    rw [buildFields] at h
    split at h
    · exact absurd h (by simp)
    · split at h
      · exact absurd h (by simp)
      · rename_i r hr
        simp only [Except.ok.injEq] at h
        subst h
        simp [ih r hr]

/-- C1: supplying exactly one of `place_id` or the complete pair `(lat, lon)`
passes argument validation of `get_point_forecast`; each of the six invalid
combinations raises the invalid-argument error with the same fixed message
`Only place_id or lat+lon can be specified!`. -/
theorem check_point_args_spec :
    ∀ (place_id : Option String) (lat lon : Option ℚ),
      (check_point_args place_id lat lon = .valid ↔
        (place_id.isSome ∧ lat.isNone ∧ lon.isNone) ∨
        (place_id.isNone ∧ lat.isSome ∧ lon.isSome)) ∧
      (check_point_args place_id lat lon = .valid ∨
        check_point_args place_id lat lon = .invalidArgument invalid_arg_msg) := by
  intro p a o
  cases p <;> cases a <;> cases o <;> simp [check_point_args]

/-- Witness for C1: a lone `place_id` validates, and the combination
`place_id` with `lat` yields the fixed invalid-argument message. -/
theorem check_point_args_spec_witness :
    check_point_args (some "london") none none = .valid ∧
    check_point_args (some "london") (some 50) none =
      .invalidArgument "Only place_id or lat+lon can be specified!" := by
  constructor
  · exact (check_point_args_spec (some "london") none none).1.mpr (by simp)
  · rcases (check_point_args_spec (some "london") (some 50) none).2 with h | h
    · have := (check_point_args_spec (some "london") (some 50) none).1.mp h
      simp at this
    · simpa [invalid_arg_msg] using h

/-- C2: for every Multiple-Times Container and integer `i` with
`0 ≤ i < len(container)`, `container[i]` returns the Single-Time Node at
chronological position `i`; for `i ≥ len(container)`, indexing raises the
index-out-of-range error. -/
theorem getitem_int_spec :
    ∀ (m : MultipleTimesData) (i : Nat),
      (∀ h : i < m.len, m.getitem (.int (i : Int)) = .ok (m.data.get ⟨i, h⟩)) ∧
      (m.len ≤ i → m.getitem (.int (i : Int)) = .error .indexError) := by
  intro m i
  constructor
  · intro h
    rw [MultipleTimesData.len] at h
    simp [MultipleTimesData.getitem, h]
  · intro h
    rw [MultipleTimesData.len] at h
    simp [MultipleTimesData.getitem]
    omega

/-- Witness for C2: on the fixture hourly container, `hourly[1]` is the
11:00 element and its `wind.angle` equals 106, while `hourly[1000]` raises
the index error. -/
theorem getitem_int_spec_witness :
    fixtureHourly.getitem (.int 1) = .ok fixtureElem1 ∧
    ((fixtureElem1.attr "wind").bind (fun w => w.attr "angle")) =
      some (.scalar (.num 106)) ∧
    fixtureHourly.getitem (.int 1000) = .error .indexError := by
  refine ⟨?_, by rfl, ?_⟩
  · exact (getitem_int_spec fixtureHourly 1).1 (by decide)
  · exact (getitem_int_spec fixtureHourly 1000).2 (by decide)

/-- C5: indexing a Multiple-Times Container with a value of any type other
than integer, string, or datetime raises the invalid-index-type error. -/
theorem getitem_other_spec :
    ∀ (m : MultipleTimesData) (r : String),
      m.getitem (.other r) = .error .invalidIndexType := by
  intro m r
  rfl

/-- C3: indexing a Multiple-Times Container with a string that exactly
matches the fixed timestamp format `YYYY-MM-DDTHH:MM:SS` and equals some
element's timestamp returns that element; any string not conforming to the
format raises the bad-string-index error `InvalidStrIndex`, regardless of
the container's contents. -/
theorem getitem_str_spec :
    ∀ (m : MultipleTimesData),
      (∀ (s : String) (t : NaiveDT) (n : SingleTimeData),
        parseF1 s = some t → m.findTs t = some n →
          m.getitem (.str s) = .ok n) ∧
      (∀ s : String, parseF1 s = none →
        m.getitem (.str s) = .error (.invalidStrIndex s)) := by
  intro m
  constructor
  · intro s t n hp hf
    simp [MultipleTimesData.getitem, hp, hf]
  · intro s hp
    simp [MultipleTimesData.getitem, hp]

/-- Witness for C3: on the fixture hourly container,
`hourly['2021-09-08T11:00:00']` is the 11:00 element with `feels_like` 23.2,
while `'2021-09-08 11:00:00'` (a space instead of `T`) raises
`InvalidStrIndex` even though the matching timestamp value exists in the
container. -/
theorem getitem_str_spec_witness :
    fixtureHourly.getitem (.str "2021-09-08T11:00:00") = .ok fixtureElem1 ∧
    fixtureElem1.attr "feels_like" = some (.scalar (.num 23.2)) ∧
    fixtureHourly.findTs ⟨2021, 9, 8, 11, 0, 0⟩ = some fixtureElem1 ∧
    fixtureHourly.getitem (.str "2021-09-08 11:00:00") =
      .error (.invalidStrIndex "2021-09-08 11:00:00") := by
  refine ⟨?_, by rfl, by rfl, ?_⟩
  · exact (getitem_str_spec fixtureHourly).1 "2021-09-08T11:00:00"
      ⟨2021, 9, 8, 11, 0, 0⟩ fixtureElem1 (by decide) (by rfl)
  · exact (getitem_str_spec fixtureHourly).2 "2021-09-08 11:00:00" (by decide)

/-- C4: indexing a Multiple-Times Container with a timezone-naive datetime
equal to an element's timestamp returns that element; the same instant as a
timezone-aware datetime in the Forecast's own timezone returns the same
element; and the same wall-clock time localized to a different timezone
raises the invalid-datetime-index error with the deterministic message
`Invalid datetime index "<dt>" to MultipleTimesData!`. -/
theorem getitem_datetime_spec :
    ∀ (m : MultipleTimesData) (t : NaiveDT),
      (∀ n : SingleTimeData, m.findTs t = some n →
        m.getitem (.dt ⟨t, none⟩) = .ok n) ∧
      (∀ (off : Int) (n : SingleTimeData), m.findTs t = some n →
        m.getitem (.dt ⟨t, some ⟨m.timezone, off⟩⟩) = .ok n) ∧
      (∀ (z : String) (off : Int), z ≠ m.timezone →
        m.getitem (.dt ⟨t, some ⟨z, off⟩⟩) =
          .error (.invalidDatetimeIndex (invalidDtMsg ⟨t, some ⟨z, off⟩⟩))) := by
  intro m t
  refine ⟨?_, ?_, ?_⟩
  · intro n hf
    simp [MultipleTimesData.getitem, hf]
  · intro off n hf
    simp [MultipleTimesData.getitem, hf]
  · intro z off hz
    simp [MultipleTimesData.getitem, hz]

/-- Witness for C4: on the fixture hourly container (timezone
`Europe/London`), the naive datetime 2021-09-09T00:00:00 returns the element
whose `probability.precipitation` is 61; the same instant localized to
`Europe/London` returns the same element; the same wall-clock time localized
to `Asia/Kabul` (offset +04:30) raises `InvalidDatetimeIndex` with message
`Invalid datetime index "2021-09-09 00:00:00+04:30" to MultipleTimesData!`. -/
theorem getitem_datetime_spec_witness :
    fixtureHourly.getitem (.dt ⟨⟨2021, 9, 9, 0, 0, 0⟩, none⟩) = .ok fixtureElem2 ∧
    ((fixtureElem2.attr "probability").bind (fun w => w.attr "precipitation")) =
      some (.scalar (.num 61)) ∧
    fixtureHourly.getitem
        (.dt ⟨⟨2021, 9, 9, 0, 0, 0⟩, some ⟨"Europe/London", 60⟩⟩) = .ok fixtureElem2 ∧
    fixtureHourly.getitem
        (.dt ⟨⟨2021, 9, 9, 0, 0, 0⟩, some ⟨"Asia/Kabul", 270⟩⟩) =
      .error (.invalidDatetimeIndex
        "Invalid datetime index \"2021-09-09 00:00:00+04:30\" to MultipleTimesData!") := by
  refine ⟨?_, by rfl, ?_, ?_⟩
  · exact (getitem_datetime_spec fixtureHourly ⟨2021, 9, 9, 0, 0, 0⟩).1
      fixtureElem2 (by rfl)
  · exact (getitem_datetime_spec fixtureHourly ⟨2021, 9, 9, 0, 0, 0⟩).2.1
      60 fixtureElem2 (by rfl)
  · have h := (getitem_datetime_spec fixtureHourly ⟨2021, 9, 9, 0, 0, 0⟩).2.2
      "Asia/Kabul" 270 (by decide)
    rw [h]
    rfl

/-- C6: `to_dict()` on a Single-Time Node returns a single-level mapping
whose keys are the flattened leaf paths joined by a single underscore per
nesting level (e.g. group `wind`, field `angle` under group `afternoon`
yields `afternoon_wind_angle`), with exactly one flattened key per leaf
field — no leaf omitted, no key produced twice, and a collision surfaced as
an error rather than silently overwritten. -/
theorem to_dict_spec :
    (∀ (g1 g2 fname : String) (v : Scalar), g1 ≠ "" → g2 ≠ "" →
      flattenFields "" [(g1, .node [(g2, .node [(fname, .scalar v)])])] =
        [(g1 ++ "_" ++ g2 ++ "_" ++ fname, .scalar v)]) ∧
    (∀ n : SingleTimeData,
      ((flattenFields "" n.fields).map Prod.fst = leafKeysFields "" n.fields) ∧
      (∀ d, n.to_dict = .ok d →
        d.map Prod.fst = leafKeysFields "" n.fields ∧ (d.map Prod.fst).Nodup) ∧
      (¬ (leafKeysFields "" n.fields).Nodup →
        n.to_dict = .error "flattened key collision")) := by
  constructor
  · intro g1 g2 fname v h1 h2
    have h3 : g1 ++ "_" ++ g2 ≠ "" := by
      intro hc
      have := congrArg String.length hc
      simp [String.length_append] at this
      exact absurd this.1.2 (by decide)
    simp [flattenFields, flattenVal, joinKey, h1, h2, h3]
  · intro n
    refine ⟨flattenFields_map_fst n.fields "", ?_, ?_⟩
    · intro d h
      rw [SingleTimeData.to_dict] at h
      split at h
      · rename_i hnd
        simp only [Except.ok.injEq] at h
        subst h
        exact ⟨flattenFields_map_fst n.fields "",
          by rw [flattenFields_map_fst] at hnd ⊢; exact hnd⟩
      · exact absurd h (by simp)
    · intro hnd
      rw [SingleTimeData.to_dict]
      rw [if_neg (by rw [flattenFields_map_fst]; exact hnd)]

/-- Witness for C6: on the fixture daily element, `to_dict()` succeeds and
contains the flattened key `afternoon_wind_angle`, and the underscore-joining
clause holds at `afternoon`, `wind`, `angle`. -/
theorem to_dict_spec_witness :
    flattenFields ""
        [("afternoon", .node [("wind", .node [("angle", FieldVal.scalar (.num 106))])])] =
      [("afternoon_wind_angle", FieldVal.scalar (.num 106))] ∧
    fixtureDaily0.to_dict =
      .ok [("day", FieldVal.time ⟨2021, 9, 8, 0, 0, 0⟩),
           ("afternoon_wind_angle", FieldVal.scalar (.num 106)),
           ("afternoon_wind_speed", FieldVal.scalar (.num 3))] ∧
    (List.map Prod.fst [("day", FieldVal.time ⟨2021, 9, 8, 0, 0, 0⟩),
           ("afternoon_wind_angle", FieldVal.scalar (.num 106)),
           ("afternoon_wind_speed", FieldVal.scalar (.num 3))]).Nodup := by
  have hd : fixtureDaily0.to_dict =
      .ok [("day", FieldVal.time ⟨2021, 9, 8, 0, 0, 0⟩),
           ("afternoon_wind_angle", FieldVal.scalar (.num 106)),
           ("afternoon_wind_speed", FieldVal.scalar (.num 3))] := by
    rw [SingleTimeData.to_dict]
    simp [fixtureDaily0, flattenFields, flattenVal, joinKey]
  refine ⟨to_dict_spec.1 "afternoon" "wind" "angle" (.num 106) (by decide) (by decide),
    hd, ?_⟩
  exact ((to_dict_spec.2 fixtureDaily0).2.1 _ hd).2

/-- C7: `to_pandas()` on a Multiple-Times Container returns a table with one
row per element (row count equal to the container length, each row the
element's flattened dictionary) and a datetime-typed row index whose values
are each element's parsed timestamp localized to the owning Forecast's
timezone. -/
theorem to_pandas_spec :
    ∀ (m : MultipleTimesData),
      m.to_pandas.rows.length = m.len ∧
      m.to_pandas.index.length = m.len ∧
      (∀ i : Nat, m.to_pandas.index[i]? =
        (m.data[i]?).map (fun e => (m.tsOf e, m.timezone))) ∧
      (∀ i : Nat, m.to_pandas.rows[i]? =
        (m.data[i]?).map (fun e => flattenFields "" e.fields)) := by
  intro m
  refine ⟨by simp [MultipleTimesData.to_pandas, MultipleTimesData.len],
    by simp [MultipleTimesData.to_pandas, MultipleTimesData.len], ?_, ?_⟩
  · intro i
    simp [MultipleTimesData.to_pandas]
  · intro i
    simp [MultipleTimesData.to_pandas]

/-- C8: `execute_request` returns the parsed JSON body on an HTTP 200
response; any non-200 final response raises the typed invalid-request error
carrying the response; the mounted policy retries at most 3 times, with
backoff factor 1, exactly on connection failures, timeouts and status codes
500, 501, 502, 503, 504; and the per-attempt timeout is 10 seconds. -/
theorem execute_request_spec :
    ∀ outcomes : Nat → Outcome,
      (retries.total = 3 ∧ retries.backoff_factor = 1 ∧
        retries.status_forcelist = [500, 501, 502, 503, 504] ∧
        request_timeout = 10) ∧
      retries_used outcomes ≤ 3 ∧
      (∀ k, k < retries_used outcomes → retryable retries (outcomes k) = true) ∧
      (retryable retries (final_outcome outcomes) = true →
        retries_used outcomes = 3) ∧
      (∀ oc : Outcome, retryable retries oc = true ↔
        (oc = .conn_error ∨ oc = .timeout_error ∨
          ∃ s body, oc = .response s body ∧
            (s = 500 ∨ s = 501 ∨ s = 502 ∨ s = 503 ∨ s = 504))) ∧
      (∀ body, final_outcome outcomes = .response 200 body →
        execute_request outcomes = .ok body) ∧
      (∀ s body, s ≠ 200 → final_outcome outcomes = .response s body →
        execute_request outcomes = .invalid_request s body) := by
  intro outcomes
  refine ⟨⟨rfl, rfl, rfl, rfl⟩, ?_, ?_, ?_, ?_, ?_, ?_⟩
  · exact run_attempts_fst_le retries outcomes retries.total 0
  · intro k hk
    exact run_attempts_retryable_below retries outcomes retries.total 0 k
      (Nat.zero_le k) hk
  · intro h
    exact run_attempts_final_retryable retries outcomes retries.total 0 h
  · intro oc
    cases oc with
    | conn_error => simp [retryable]
    | timeout_error => simp [retryable]
    | response s body =>
      simp only [retryable, retries]
      constructor
      · intro h
        refine Or.inr (Or.inr ⟨s, body, rfl, ?_⟩)
        simpa using h
      · rintro (h | h | ⟨s2, b2, heq, hs⟩)
        · exact absurd h (by simp)
        · exact absurd h (by simp)
        · obtain ⟨rfl, rfl⟩ : s2 = s ∧ b2 = body := by
            injection heq with h1 h2
            exact ⟨h1.symm, h2.symm⟩
          simpa using hs
  · intro body h
    simp [execute_request, h]
  · intro s body hs h
    simp [execute_request, h, hs]

/-- Witness for C8: a first attempt answering 503 is retried and the 200
retry returns the parsed body; a 404 answer is not retried and raises the
invalid-request error carrying the response. -/
theorem execute_request_spec_witness :
    execute_request
        (fun k => if k = 0 then .response 503 .null else .response 200 (.num 1)) =
      .ok (.num 1) ∧
    retryable retries (.response 503 .null) = true ∧
    retries_used
        (fun k => if k = 0 then .response 503 .null else .response 200 (.num 1)) = 1 ∧
    execute_request (fun _ => .response 404 .null) = .invalid_request 404 .null := by
  refine ⟨?_, ?_, by rfl, ?_⟩
  · exact (execute_request_spec
      (fun k => if k = 0 then .response 503 .null else .response 200 (.num 1))).2.2.2.2.2.1
      (.num 1) (by rfl)
  · exact ((execute_request_spec (fun _ => .response 404 .null)).2.2.2.2.1
      (.response 503 .null)).mpr
      (Or.inr (Or.inr ⟨503, .null, rfl, by simp⟩))
  · exact (execute_request_spec (fun _ => .response 404 .null)).2.2.2.2.2.2
      404 .null (by decide) (by rfl)

/-- C9: a Forecast built from a successful API response carries `lat`, `lon`,
`elevation`, `timezone` and `units` equal to the response's location
metadata, and every Single-Time Node built from a JSON object exposes via
`get_members()` exactly the keys present in that object — no field added by
default, none dropped. -/
theorem forecast_structure_spec :
    (∀ (fs : List (String × Json)) (f : Forecast),
      buildForecast (.obj fs) = .ok f →
        lookupKV "lat" fs = some (.num f.lat) ∧
        lookupKV "lon" fs = some (.num f.lon) ∧
        lookupKV "elevation" fs = some (.num f.elevation) ∧
        lookupKV "timezone" fs = some (.str f.timezone) ∧
        lookupKV "units" fs = some (.str f.units)) ∧
    (∀ (kvs : List (String × Json)) (n : SingleTimeData),
      buildNode (.obj kvs) = .ok n → n.get_members = kvs.map Prod.fst) ∧
    (∀ (kvs : List (String × Json)) (bs : List (String × FieldVal)),
      buildFields kvs = .ok bs → bs.map Prod.fst = kvs.map Prod.fst) := by
  refine ⟨?_, ?_, buildFields_keys⟩
  · intro fs f h
    simp only [buildForecast] at h
    split at h
    · rename_i la lo el tz un hla hlo hel htz hun
      split at h
      · exact absurd h (by simp)
      · simp only [Except.ok.injEq] at h
        subst h
        exact ⟨hla, hlo, hel, htz, hun⟩
    · exact absurd h (by simp)
  · intro kvs n h
    simp only [buildNode] at h
    split at h
    · rename_i built hb
      simp only [Except.ok.injEq] at h
      subst h
      simp [SingleTimeData.get_members, buildFields_keys kvs built hb]
    · exact absurd h (by simp)

/-- Witness for C9: the sample payload builds into the expected Forecast,
its metadata equals the payload's metadata fields, and a node built from a
two-key object exposes exactly those two keys. -/
theorem forecast_structure_spec_witness :
    buildForecast (.obj samplePayload) = .ok sampleForecast ∧
    lookupKV "lat" samplePayload = some (.num sampleForecast.lat) ∧
    lookupKV "timezone" samplePayload = some (.str sampleForecast.timezone) ∧
    lookupKV "units" samplePayload = some (.str sampleForecast.units) ∧
    (∃ n : SingleTimeData,
      buildNode (.obj [("temperature", .num 17), ("wind", .obj [("angle", .num 106)])]) =
        .ok n ∧ n.get_members = ["temperature", "wind"]) := by
  have hb : buildForecast (.obj samplePayload) = .ok sampleForecast := by
    simp [buildForecast, samplePayload, sampleForecast, lookupKV, buildSections,
      buildSection, buildFields, buildVal, metaKeys, summaryOf]
  have hn : buildNode
      (.obj [("temperature", .num 17), ("wind", .obj [("angle", .num 106)])]) =
      .ok ⟨[("temperature", .scalar (.num 17)),
            ("wind", .node [("angle", .scalar (.num 106))])]⟩ := by
    simp [buildNode, buildFields, buildVal]
  have hmeta := (forecast_structure_spec.1 samplePayload sampleForecast) hb
  exact ⟨hb, hmeta.1, hmeta.2.2.2.1, hmeta.2.2.2.2,
    ⟨_, hn, forecast_structure_spec.2.1 _ _ hn⟩⟩

/-- C10: a `RequestHandler` constructed with `(key, use_gzip)` owns a session
whose headers map `X-API-Key` to the key and contain `Accept-Encoding: gzip`
exactly when `use_gzip` is true; `execute_request` applies these headers
unchanged with the fixed timeout; and the same retry policy is mounted for
both the `http://` and `https://` URL schemes. -/
theorem requestHandler_init_spec :
    ∀ (base : String → Option String) (key : String) (use_gzip : Bool),
      ((requestHandler_init base key use_gzip).headers "X-API-Key" = some key) ∧
      (base "Accept-Encoding" ≠ some "gzip" →
        ((requestHandler_init base key use_gzip).headers "Accept-Encoding" =
          some "gzip" ↔ use_gzip = true)) ∧
      ((requestHandler_init base key use_gzip).adapters "http://" = some retries ∧
        (requestHandler_init base key use_gzip).adapters "https://" = some retries) ∧
      (∀ url : String,
        (session_send (requestHandler_init base key use_gzip) url).headers =
          (requestHandler_init base key use_gzip).headers ∧
        (session_send (requestHandler_init base key use_gzip) url).timeout_sec =
          request_timeout) := by
  intro base key gz
  refine ⟨?_, ?_, ⟨by simp [requestHandler_init], by simp [requestHandler_init]⟩,
    fun url => ⟨rfl, rfl⟩⟩
  · cases gz <;> simp [requestHandler_init, dict_set]
  · intro hbase
    cases gz <;> simp [requestHandler_init, dict_set, hbase]

/-- Witness for C10: with no base headers, the key header is set; the gzip
header is present when `use_gzip` is true and absent when it is false. -/
theorem requestHandler_init_spec_witness :
    (requestHandler_init (fun _ => none) "abc" true).headers "X-API-Key" = some "abc" ∧
    (requestHandler_init (fun _ => none) "abc" true).headers "Accept-Encoding" =
      some "gzip" ∧
    (requestHandler_init (fun _ => none) "abc" false).headers "Accept-Encoding" ≠
      some "gzip" ∧
    (requestHandler_init (fun _ => none) "abc" true).adapters "https://" = some retries := by
  refine ⟨(requestHandler_init_spec (fun _ => none) "abc" true).1, ?_, ?_,
    (requestHandler_init_spec (fun _ => none) "abc" true).2.2.1.2⟩
  · exact ((requestHandler_init_spec (fun _ => none) "abc" true).2.1
      (by simp)).mpr rfl
  · intro hcontra
    have := ((requestHandler_init_spec (fun _ => none) "abc" false).2.1
      (by simp)).mp hcontra
    simp at this
